import Mathlib

/-!
Shallow embedding of the Ricoh 2A03/2A07 (MOS 6502 variant) CPU emulator
from src/2a0x.c, together with theorems checking the natural-language
specification against it.

Conventions of the embedding:
* 8-bit machine values (`mos_word_t`/`uint8_t`) are `Nat` reduced mod 256 at
  every point where C performs a conversion or a truncating assignment.
* 16-bit values (`mos_pa_t`/`uint16_t`) are `Nat` reduced mod 65536 likewise.
* `uint32_t` arithmetic in the region map is reduced mod 2^32 where C wraps.
* The 64-bit counters `cycle` and `total_retired` are plain `Nat` (their
  wrap-around is unreachable for any execution considered here).
* `ep_verify` (defs.h) terminates the process when its condition is false;
  `assert` is live (no NDEBUG in the build).  Both are modelled by functions
  returning `Option`, with `none` standing for the fatal abort.
* Backing RAM (`mos_word_t* mapped`) is modelled as a function `Nat → Nat`
  inside the region record; loads reduce mod 256 (the C array holds bytes).
  MMIO regions (`is_ram = false`) cannot be constructed through this file's
  API (`mos6502_map_ram_region` is the only region constructor in 2a0x.c),
  so their handler dispatch is left unmodelled (`none`).
-/

namespace Epoch

/-- enum mos6502_uop from src/2a0x.c. -/
inductive Uop
  | NOP | HLT | LDA | LDX | LDY | STA | STX | STY
  | TAX | TAY | TSX | TXA | TXS | TYA
  | PHA | PLA | PHP | PLP
  | DEC | DEX | DEY | INC | INX | INY
  | ADC | SBC | AND | EOR | ORA
  | ASL | LSR | ROL | ROR
  | CLC | CLD | CLI | CLV | SEC | SED | SEI
deriving DecidableEq, Repr

/-- enum mos6502_addr_mode from src/2a0x.c. -/
inductive AddrMode
  | IMP | IMM | Z | ZX | ZY | ABS | ABSX | ABSY | INDX | INDY
deriving DecidableEq, Repr

/-- struct mos6502_instr: uop, mode, current sub-cycle, total cycles, and the
three flag bits of the `flags` byte (bit 0 address_latched, bit 1 xpage_stall,
bit 2 always_stall, the latter also known as MOS_INSTR_RW). -/
structure Mos6502Instr where
  uop : Uop
  mode : AddrMode
  cycle : Nat
  ncycles : Nat
  address_latched : Bool
  xpage_stall : Bool
  always_stall : Bool
deriving DecidableEq, Repr

/-- struct mos6502_pa_range.  `mem` is the externally owned byte array
(`mos_word_t* mapped`).  Only RAM regions are constructible via 2a0x.c. -/
structure PaRange where
  base : Nat
  size : Nat
  is_ram : Bool
  mem : Nat → Nat

/-- struct mos6502_cpu.  `pa_map` carries `nregions` as its length; the C
array capacity is 8 and is enforced in `insert_pa_range`. -/
structure Mos6502Cpu where
  PC : Nat
  AB : Nat
  A : Nat
  X : Nat
  Y : Nat
  P : Nat
  SP : Nat
  DB : Nat
  halted : Bool
  instr : Mos6502Instr
  cycle : Nat
  total_retired : Nat
  pa_map : List PaRange

def SR_N : Nat := 0x80
def SR_V : Nat := 0x40
def SR_U : Nat := 0x20
def SR_B : Nat := 0x10
def SR_D : Nat := 0x08
def SR_I : Nat := 0x04
def SR_Z : Nat := 0x02
def SR_C : Nat := 0x01

/-- The covering test of map_addr: `r->base <= pa && pa <= r->base + (r->size - 1)`.
`r->size - 1` is uint32 arithmetic and the sum is computed in uint32. -/
def pa_range_covers (r : PaRange) (pa : Nat) : Bool :=
  decide (r.base ≤ pa) &&
  decide (pa ≤ (r.base + ((r.size + (2 ^ 32 - 1)) % 2 ^ 32)) % 2 ^ 32)

/-- map_addr: linear scan returning the first covering region; an unmapped
probe hits `ep_verify(false)` (fatal), modelled as `none`. -/
def map_addr : List PaRange → Nat → Option PaRange
  | [], _ => none
  | r :: rest, pa => if pa_range_covers r pa then some r else map_addr rest pa

/-- load_word: resolve the region and read.  RAM reads the backing byte at
offset `pa - base`; the MMIO handler branch is not constructible here. -/
def load_word (c : Mos6502Cpu) (pa : Nat) : Option Nat :=
  match map_addr c.pa_map pa with
  | none => none
  | some r => if r.is_ram then some (r.mem (pa - r.base) % 256) else none

/-- The list part of store_word: write through the first covering region. -/
def store_ranges : List PaRange → Nat → Nat → Option (List PaRange)
  | [], _, _ => none
  | r :: rest, pa, v =>
    if pa_range_covers r pa then
      if r.is_ram then
        some ({ r with mem := fun o => if o = pa - r.base then v % 256 else r.mem o } :: rest)
      else none
    else
      match store_ranges rest pa v with
      | none => none
      | some l => some (r :: l)

/-- store_word. -/
def store_word (c : Mos6502Cpu) (pa v : Nat) : Option Mos6502Cpu :=
  match store_ranges c.pa_map pa v with
  | none => none
  | some l => some { c with pa_map := l }

/-- Flag bits of the MOS_OP initialiser (`flags` byte of mos6502_instr). -/
def MOS_INSTR_ADDR_LATCHED : Nat := 1
def MOS_INSTR_XPAGE_STALL : Nat := 2
def MOS_INSTR_RW : Nat := 4

/-- One `_MOS_OP_FLAGS` initialiser: uop, mode, ncycles, flags byte;
`cycle` starts at 0 and the flag bits are unpacked from the byte. -/
def mk_instr (uop : Uop) (mode : AddrMode) (ncycles flags : Nat) : Mos6502Instr :=
  { uop := uop, mode := mode, cycle := 0, ncycles := ncycles,
    address_latched := flags.testBit 0,
    xpage_stall := flags.testBit 1,
    always_stall := flags.testBit 2 }

/-- The designated initialisers of `mos_opcodes[]`, as (index, descriptor)
pairs, in source order. -/
def mos_opcodes : List (Nat × Mos6502Instr) := [
  (0xea, mk_instr .NOP .IMP 2 0),

  (0x02, mk_instr .HLT .IMP 1 0),
  (0x12, mk_instr .HLT .IMP 1 0),
  (0x22, mk_instr .HLT .IMP 1 0),
  (0x32, mk_instr .HLT .IMP 1 0),
  (0x42, mk_instr .HLT .IMP 1 0),
  (0x52, mk_instr .HLT .IMP 1 0),
  (0x62, mk_instr .HLT .IMP 1 0),
  (0x72, mk_instr .HLT .IMP 1 0),
  (0x92, mk_instr .HLT .IMP 1 0),
  (0xb2, mk_instr .HLT .IMP 1 0),
  (0xd2, mk_instr .HLT .IMP 1 0),
  (0xf2, mk_instr .HLT .IMP 1 0),

  (0xa9, mk_instr .LDA .IMM 2 0),
  (0xa5, mk_instr .LDA .Z 3 0),
  (0xb5, mk_instr .LDA .ZX 4 0),
  (0xad, mk_instr .LDA .ABS 4 0),
  (0xbd, mk_instr .LDA .ABSX 4 MOS_INSTR_XPAGE_STALL),
  (0xb9, mk_instr .LDA .ABSY 4 MOS_INSTR_XPAGE_STALL),
  (0xa1, mk_instr .LDA .INDX 6 0),
  (0xb1, mk_instr .LDA .INDY 5 MOS_INSTR_XPAGE_STALL),

  (0xa2, mk_instr .LDX .IMM 2 0),
  (0xa6, mk_instr .LDX .Z 3 0),
  (0xb6, mk_instr .LDX .ZY 4 0),
  (0xae, mk_instr .LDX .ABS 4 0),
  (0xbe, mk_instr .LDX .ABSY 4 MOS_INSTR_XPAGE_STALL),

  (0xa0, mk_instr .LDY .IMM 2 0),
  (0xa4, mk_instr .LDY .Z 3 0),
  (0xb4, mk_instr .LDY .ZX 4 0),
  (0xac, mk_instr .LDY .ABS 4 0),
  (0xbc, mk_instr .LDY .ABSX 4 MOS_INSTR_XPAGE_STALL),

  (0x85, mk_instr .STA .Z 3 0),
  (0x95, mk_instr .STA .ZX 4 0),
  (0x8D, mk_instr .STA .ABS 4 0),
  (0x9D, mk_instr .STA .ABSX 5 MOS_INSTR_RW),
  (0x99, mk_instr .STA .ABSY 5 MOS_INSTR_RW),
  (0x81, mk_instr .STA .INDX 6 0),
  (0x91, mk_instr .STA .INDY 6 MOS_INSTR_RW),

  (0x86, mk_instr .STX .Z 3 0),
  (0x96, mk_instr .STX .ZY 4 0),
  (0x8E, mk_instr .STX .ABS 4 0),

  (0x84, mk_instr .STY .Z 3 0),
  (0x94, mk_instr .STY .ZX 4 0),
  (0x8C, mk_instr .STY .ABS 4 0),

  (0xAA, mk_instr .TAX .IMP 2 0),
  (0xA8, mk_instr .TAY .IMP 2 0),
  (0xBA, mk_instr .TSX .IMP 2 0),
  (0x8A, mk_instr .TXA .IMP 2 0),
  (0x9A, mk_instr .TXS .IMP 2 0),
  (0x98, mk_instr .TYA .IMP 2 0),

  (0x48, mk_instr .PHA .IMP 3 0),
  (0x68, mk_instr .PLA .IMP 4 0),
  (0x08, mk_instr .PHP .IMP 3 0),
  (0x28, mk_instr .PLP .IMP 4 0),

  (0xC6, mk_instr .DEC .Z 5 0),
  (0xD6, mk_instr .DEC .ZX 6 0),
  (0xCE, mk_instr .DEC .ABS 6 0),
  (0xDE, mk_instr .DEC .ABSX 7 MOS_INSTR_RW),
  (0xCA, mk_instr .DEX .IMP 2 0),
  (0x88, mk_instr .DEY .IMP 2 0),

  (0xE6, mk_instr .INC .Z 5 0),
  (0xF6, mk_instr .INC .ZX 6 0),
  (0xEE, mk_instr .INC .ABS 6 0),
  (0xFE, mk_instr .INC .ABSX 7 MOS_INSTR_RW),
  (0xE8, mk_instr .INX .IMP 2 0),
  (0xC8, mk_instr .INY .IMP 2 0),

  (0x69, mk_instr .ADC .IMM 2 0),
  (0x65, mk_instr .ADC .Z 3 0),
  (0x75, mk_instr .ADC .ZX 4 0),
  (0x6D, mk_instr .ADC .ABS 4 0),
  (0x7D, mk_instr .ADC .ABSX 4 MOS_INSTR_XPAGE_STALL),
  (0x79, mk_instr .ADC .ABSY 4 MOS_INSTR_XPAGE_STALL),
  (0x61, mk_instr .ADC .INDX 6 0),
  (0x71, mk_instr .ADC .INDY 5 MOS_INSTR_XPAGE_STALL),

  (0xE9, mk_instr .SBC .IMM 2 0),
  (0xE5, mk_instr .SBC .Z 3 0),
  (0xF5, mk_instr .SBC .ZX 4 0),
  (0xED, mk_instr .SBC .ABS 4 0),
  (0xFD, mk_instr .SBC .ABSX 4 MOS_INSTR_XPAGE_STALL),
  (0xF9, mk_instr .SBC .ABSY 4 MOS_INSTR_XPAGE_STALL),
  (0xE1, mk_instr .SBC .INDX 6 0),
  (0xF1, mk_instr .SBC .INDY 5 MOS_INSTR_XPAGE_STALL),

  (0x29, mk_instr .AND .IMM 2 0),
  (0x25, mk_instr .AND .Z 3 0),
  (0x35, mk_instr .AND .ZX 4 0),
  (0x2D, mk_instr .AND .ABS 4 0),
  (0x3D, mk_instr .AND .ABSX 4 MOS_INSTR_XPAGE_STALL),
  (0x39, mk_instr .AND .ABSY 4 MOS_INSTR_XPAGE_STALL),
  (0x21, mk_instr .AND .INDX 6 0),
  (0x31, mk_instr .AND .INDY 5 MOS_INSTR_XPAGE_STALL),

  (0x49, mk_instr .EOR .IMM 2 0),
  (0x45, mk_instr .EOR .Z 3 0),
  (0x55, mk_instr .EOR .ZX 4 0),
  (0x4D, mk_instr .EOR .ABS 4 0),
  (0x5D, mk_instr .EOR .ABSX 4 MOS_INSTR_XPAGE_STALL),
  (0x59, mk_instr .EOR .ABSY 4 MOS_INSTR_XPAGE_STALL),
  (0x41, mk_instr .EOR .INDX 6 0),
  (0x51, mk_instr .EOR .INDY 5 MOS_INSTR_XPAGE_STALL),

  (0x09, mk_instr .ORA .IMM 2 0),
  (0x05, mk_instr .ORA .Z 3 0),
  (0x15, mk_instr .ORA .ZX 4 0),
  (0x0D, mk_instr .ORA .ABS 4 0),
  (0x1D, mk_instr .ORA .ABSX 4 MOS_INSTR_XPAGE_STALL),
  (0x19, mk_instr .ORA .ABSY 4 MOS_INSTR_XPAGE_STALL),
  (0x01, mk_instr .ORA .INDX 6 0),
  (0x11, mk_instr .ORA .INDY 5 MOS_INSTR_XPAGE_STALL),

  (0x0A, mk_instr .ASL .IMP 2 0),
  (0x06, mk_instr .ASL .Z 5 0),
  (0x16, mk_instr .ASL .ZX 6 0),
  (0x0E, mk_instr .ASL .ABS 6 0),
  (0x1E, mk_instr .ASL .ABSX 7 MOS_INSTR_RW),

  (0x4A, mk_instr .LSR .IMP 2 0),
  (0x46, mk_instr .LSR .Z 5 0),
  (0x56, mk_instr .LSR .ZX 6 0),
  (0x4E, mk_instr .LSR .ABS 6 0),
  (0x5E, mk_instr .LSR .ABSX 7 MOS_INSTR_RW),

  (0x2A, mk_instr .ROL .IMP 2 0),
  (0x26, mk_instr .ROL .Z 5 0),
  (0x36, mk_instr .ROL .ZX 6 0),
  (0x2E, mk_instr .ROL .ABS 6 0),
  (0x3E, mk_instr .ROL .ABSX 7 MOS_INSTR_RW),

  (0x6A, mk_instr .ROR .IMP 2 0),
  (0x66, mk_instr .ROR .Z 5 0),
  (0x76, mk_instr .ROR .ZX 6 0),
  (0x6E, mk_instr .ROR .ABS 6 0),
  (0x7E, mk_instr .ROR .ABSX 7 MOS_INSTR_RW),

  (0x18, mk_instr .CLC .IMP 2 0),
  (0xD8, mk_instr .CLD .IMP 2 0),
  (0x58, mk_instr .CLI .IMP 2 0),
  (0xB8, mk_instr .CLV .IMP 2 0),
  (0x38, mk_instr .SEC .IMP 2 0),
  (0xF8, mk_instr .SED .IMP 2 0),
  (0x78, mk_instr .SEI .IMP 2 0)]

/-- The opcode bytes that carry a designated initialiser. -/
def populated_opcode_bytes : List Nat := mos_opcodes.map (fun p => p.1)

/-- A zero-initialised table entry (what C gives every element without a
designated initialiser): uop tag 0 is NOP, mode tag 0 is IMP. -/
def zero_instr : Mos6502Instr :=
  { uop := .NOP, mode := .IMP, cycle := 0, ncycles := 0,
    address_latched := false, xpage_stall := false, always_stall := false }

/-- Number of elements of the C array `mos_opcodes[]`: the largest
designated index plus one. -/
def mos_opcodes_size : Nat :=
  (mos_opcodes.foldl (fun m p => max m p.1) 0) + 1

/-- The value of `mos_opcodes[b]` for an in-bounds b, zero-filled where no
initialiser names b. -/
def mos_opcode_entry (b : Nat) : Mos6502Instr :=
  match mos_opcodes.find? (fun p => p.1 == b) with
  | some p => p.2
  | none => zero_instr

/-- Bounds-checked table access: `none` models reading past the end of the
array (undefined behaviour in C). -/
def mos_opcodes_get (b : Nat) : Option Mos6502Instr :=
  if b < mos_opcodes_size then some (mos_opcode_entry b) else none

/-- fetch_next_instr: `mos_opcodes[load_word(cpu, cpu->PC++)]` — load at the
old PC, bump PC (uint16 wrap), index the table. -/
def fetch_next_instr (c : Mos6502Cpu) : Option (Mos6502Instr × Mos6502Cpu) :=
  match load_word c c.PC with
  | none => none
  | some b =>
    match mos_opcodes_get b with
    | none => none
    | some i => some (i, { c with PC := (c.PC + 1) % 65536 })

/-- latch_address: set AB (the argument passes through a mos_pa_t parameter)
and mark the address latched. -/
def latch_address (c : Mos6502Cpu) (addr : Nat) : Mos6502Cpu :=
  { c with AB := addr % 65536,
           instr := { c.instr with address_latched := true } }

/-- instr_is_tplus: HLT never has a T+ stage. -/
def instr_is_tplus (i : Mos6502Instr) : Bool :=
  decide (i.uop ≠ .HLT) && decide (i.cycle + 1 = i.ncycles)

/-- instr_should_stall: always_stall forces the delay; an xpage_stall
instruction pays it only when `(~base & 0xFF) < index`, bumping ncycles
(uint8) to account for the inserted cycle.  Returns the stall decision and
the (possibly updated) instruction record. -/
def instr_should_stall (i : Mos6502Instr) (base index : Nat) : Bool × Mos6502Instr :=
  if i.always_stall then (true, i)
  else if decide ((base % 256) ^^^ 0xFF < index) && i.xpage_stall then
    (true, { i with ncycles := (i.ncycles + 1) % 256 })
  else (false, i)

/-- change_flags: `P = (P & ~mask) | val`, truncated to the uint8 field. -/
def change_flags (c : Mos6502Cpu) (mask val : Nat) : Mos6502Cpu :=
  { c with P := ((c.P &&& (0xFF ^^^ mask)) ||| val) % 256 }

/-- set_value_flags: Z from `!val`, N from `val & 0x80` (val arrives through
a mos_word_t parameter). -/
def set_value_flags (c : Mos6502Cpu) (val : Nat) : Mos6502Cpu :=
  change_flags c (SR_Z ||| SR_N)
    ((if val % 256 = 0 then SR_Z else 0) |||
     (if (val % 256) &&& 0x80 ≠ 0 then SR_N else 0))

/-- exec_addc: the common ADC/SBC core.  `val` is the uint16 sum of A, the
mval parameter (a mos_word_t) and the carry-in; overflow V is computed from
the pre-update A, then C, then Z/N from the 8-bit result, then A is written. -/
def exec_addc (c : Mos6502Cpu) (mval : Nat) : Mos6502Cpu :=
  let m := mval % 256
  let val := c.A + m + (if c.P &&& SR_C ≠ 0 then 1 else 0)
  let res := val &&& 0xFF
  let c1 := change_flags c SR_V (if (c.A ^^^ res) &&& (m ^^^ res) &&& 0x80 ≠ 0 then SR_V else 0)
  let c2 := change_flags c1 SR_C (if val > 0xFF then SR_C else 0)
  let c3 := set_value_flags c2 res
  { c3 with A := res }

/-- addr_mode_exec: one sub-cycle of the addressing-mode state machine.
Returns `immediate` (IMP/IMM complete without consuming the cycle) and the
updated state; `none` models the `ep_verify(false)` illegal sub-cycle
aborts. -/
def addr_mode_exec (c : Mos6502Cpu) : Option (Bool × Mos6502Cpu) :=
  match c.instr.mode with
  | .IMP =>
    if c.instr.cycle = 0 then
      some (true, { c with instr := { c.instr with address_latched := true } })
    else none
  | .IMM =>
    if c.instr.cycle = 0 then
      some (true, { latch_address c c.PC with PC := (c.PC + 1) % 65536 })
    else none
  | .Z =>
    if c.instr.cycle = 0 then
      match load_word c c.PC with
      | none => none
      | some v => some (false, latch_address { c with PC := (c.PC + 1) % 65536 } v)
    else none
  | .ZX =>
    match c.instr.cycle with
    | 0 =>
      match load_word c c.PC with
      | none => none
      | some v => some (false, { c with DB := v, PC := (c.PC + 1) % 65536 })
    | 1 => some (false, latch_address c ((c.DB + c.X) &&& 0xFF))
    | _ => none
  | .ZY =>
    match c.instr.cycle with
    | 0 =>
      match load_word c c.PC with
      | none => none
      | some v => some (false, { c with DB := v, PC := (c.PC + 1) % 65536 })
    | 1 => some (false, latch_address c ((c.DB + c.Y) &&& 0xFF))
    | _ => none
  | .ABS =>
    match c.instr.cycle with
    | 0 =>
      match load_word c c.PC with
      | none => none
      | some v => some (false, { c with AB := v, PC := (c.PC + 1) % 65536 })
    | 1 =>
      match load_word c c.PC with
      | none => none
      | some v =>
        some (false, latch_address { c with PC := (c.PC + 1) % 65536 } ((v <<< 8) ||| c.AB))
    | _ => none
  | .ABSX =>
    match c.instr.cycle with
    | 0 =>
      match load_word c c.PC with
      | none => none
      | some v => some (false, { c with AB := v, PC := (c.PC + 1) % 65536 })
    | 1 =>
      match load_word c c.PC with
      | none => none
      | some v =>
        let c := { c with AB := (v <<< 8) ||| c.AB, PC := (c.PC + 1) % 65536 }
        let si := instr_should_stall c.instr c.AB c.X
        if si.1 then some (false, { c with instr := si.2 })
        else some (false, latch_address c (c.AB + c.X))
    | 2 => some (false, latch_address c (c.AB + c.X))
    | _ => none
  | .ABSY =>
    match c.instr.cycle with
    | 0 =>
      match load_word c c.PC with
      | none => none
      | some v => some (false, { c with AB := v, PC := (c.PC + 1) % 65536 })
    | 1 =>
      match load_word c c.PC with
      | none => none
      | some v =>
        let c := { c with AB := (v <<< 8) ||| c.AB, PC := (c.PC + 1) % 65536 }
        let si := instr_should_stall c.instr c.AB c.Y
        if si.1 then some (false, { c with instr := si.2 })
        else some (false, latch_address c (c.AB + c.Y))
    | 2 => some (false, latch_address c (c.AB + c.Y))
    | _ => none
  | .INDX =>
    match c.instr.cycle with
    | 0 =>
      match load_word c c.PC with
      | none => none
      | some v => some (false, { c with DB := v, PC := (c.PC + 1) % 65536 })
    | 1 => some (false, { c with DB := (c.DB + c.X) % 256 })
    | 2 =>
      match load_word c c.DB with
      | none => none
      | some v => some (false, { c with AB := v, DB := (c.DB + 1) % 256 })
    | 3 =>
      match load_word c c.DB with
      | none => none
      | some v => some (false, latch_address c ((v <<< 8) ||| c.AB))
    | _ => none
  | .INDY =>
    match c.instr.cycle with
    | 0 =>
      match load_word c c.PC with
      | none => none
      | some v => some (false, { c with DB := v, PC := (c.PC + 1) % 65536 })
    | 1 =>
      match load_word c c.DB with
      | none => none
      | some v => some (false, { c with AB := v, DB := (c.DB + 1) % 256 })
    | 2 =>
      match load_word c c.DB with
      | none => none
      | some v =>
        let c := { c with AB := (v <<< 8) ||| c.AB }
        let si := instr_should_stall c.instr c.AB c.Y
        if si.1 then some (false, { c with instr := si.2 })
        else some (false, latch_address c (c.AB + c.Y))
    | 3 => some (false, latch_address c (c.AB + c.Y))
    | _ => none

/-- uop_exec: one sub-cycle of the micro-op executor.  `ep_verify(!halted)`
on entry, live `assert(address_latched)` on the memory-operand cases, and
the `ep_verify(false)` default/illegal sub-cycle arms are all modelled as
`none`. -/
def uop_exec (c : Mos6502Cpu) : Option Mos6502Cpu :=
  if c.halted then none
  else
    match c.instr.uop with
    | .NOP => some c
    | .HLT => some { c with halted := true }
    | .LDA =>
      if c.instr.address_latched then
        match load_word c c.AB with
        | none => none
        | some v => some (set_value_flags { c with A := v } v)
      else none
    | .LDX =>
      if c.instr.address_latched then
        match load_word c c.AB with
        | none => none
        | some v => some (set_value_flags { c with X := v } v)
      else none
    | .LDY =>
      if c.instr.address_latched then
        match load_word c c.AB with
        | none => none
        | some v => some (set_value_flags { c with Y := v } v)
      else none
    | .STA =>
      if c.instr.address_latched then store_word c c.AB c.A else none
    | .STX =>
      if c.instr.address_latched then store_word c c.AB c.X else none
    | .STY =>
      if c.instr.address_latched then store_word c c.AB c.Y else none
    | .TAX => some (set_value_flags { c with X := c.A } c.A)
    | .TAY => some (set_value_flags { c with Y := c.A } c.A)
    | .TSX => some (set_value_flags { c with X := c.SP } c.SP)
    | .TXA => some (set_value_flags { c with A := c.X } c.X)
    | .TXS => some (set_value_flags { c with SP := c.X } c.X)
    | .TYA => some (set_value_flags { c with A := c.Y } c.Y)
    | .PHA =>
      match c.instr.cycle with
      | 0 => some { c with AB := 0x0100 ||| c.SP }
      | 1 =>
        match store_word c c.AB c.A with
        | none => none
        | some c1 => some { c1 with SP := (c1.SP + 255) % 256 }
      | _ => none
    | .PLA =>
      match c.instr.cycle with
      | 0 => some { c with SP := (c.SP + 1) % 256 }
      | 1 => some { c with AB := 0x0100 ||| c.SP }
      | 2 =>
        match load_word c c.AB with
        | none => none
        | some v => some (set_value_flags { c with A := v } v)
      | _ => none
    | .PHP =>
      match c.instr.cycle with
      | 0 => some { c with AB := 0x0100 ||| c.SP }
      | 1 =>
        match store_word c c.AB (c.P ||| SR_B ||| SR_U) with
        | none => none
        | some c1 => some { c1 with SP := (c1.SP + 255) % 256 }
      | _ => none
    | .PLP =>
      match c.instr.cycle with
      | 0 => some { c with SP := (c.SP + 1) % 256 }
      | 1 => some { c with AB := 0x0100 ||| c.SP }
      | 2 =>
        match load_word c c.AB with
        | none => none
        | some v =>
          some { c with P := (c.P &&& (SR_B ||| SR_U)) ||| (v &&& (0xFF ^^^ (SR_B ||| SR_U))) }
      | _ => none
    | .DEC =>
      if c.instr.address_latched then
        match c.instr.ncycles - c.instr.cycle - 1 with
        | 3 =>
          match load_word c c.AB with
          | none => none
          | some v => some { c with DB := v }
        | 2 => some { c with DB := (c.DB + 255) % 256 }
        | 1 =>
          match store_word c c.AB c.DB with
          | none => none
          | some c1 => some (set_value_flags c1 c1.DB)
        | _ => none
      else none
    | .INC =>
      if c.instr.address_latched then
        match c.instr.ncycles - c.instr.cycle - 1 with
        | 3 =>
          match load_word c c.AB with
          | none => none
          | some v => some { c with DB := v }
        | 2 => some { c with DB := (c.DB + 1) % 256 }
        | 1 =>
          match store_word c c.AB c.DB with
          | none => none
          | some c1 => some (set_value_flags c1 c1.DB)
        | _ => none
      else none
    | .DEX => some (set_value_flags { c with X := (c.X + 255) % 256 } ((c.X + 255) % 256))
    | .INX => some (set_value_flags { c with X := (c.X + 1) % 256 } ((c.X + 1) % 256))
    | .DEY => some (set_value_flags { c with Y := (c.Y + 255) % 256 } ((c.Y + 255) % 256))
    | .INY => some (set_value_flags { c with Y := (c.Y + 1) % 256 } ((c.Y + 1) % 256))
    | .ADC =>
      if c.instr.address_latched then
        match load_word c c.AB with
        | none => none
        | some v => some (exec_addc c v)
      else none
    | .SBC =>
      if c.instr.address_latched then
        match load_word c c.AB with
        | none => none
        | some v => some (exec_addc c (v ^^^ 0xFF))
      else none
    | .AND =>
      if c.instr.address_latched then
        match load_word c c.AB with
        | none => none
        | some v => some (set_value_flags { c with A := c.A &&& v } (c.A &&& v))
      else none
    | .EOR =>
      if c.instr.address_latched then
        match load_word c c.AB with
        | none => none
        | some v =>
          some (set_value_flags { c with A := (c.A ^^^ v) % 256 } ((c.A ^^^ v) % 256))
      else none
    | .ORA =>
      if c.instr.address_latched then
        match load_word c c.AB with
        | none => none
        | some v =>
          some (set_value_flags { c with A := (c.A ||| v) % 256 } ((c.A ||| v) % 256))
      else none
    | .ASL =>
      if c.instr.mode = .IMP then
        let c1 := change_flags c SR_C (if c.A &&& 0x80 ≠ 0 then SR_C else 0)
        let a := (c1.A <<< 1) % 256
        some (set_value_flags { c1 with A := a } a)
      else
        if c.instr.address_latched then
          match c.instr.ncycles - c.instr.cycle - 1 with
          | 3 =>
            match load_word c c.AB with
            | none => none
            | some v => some { c with DB := v }
          | 2 =>
            let c1 := change_flags c SR_C (if c.DB &&& 0x80 ≠ 0 then SR_C else 0)
            let d := (c1.DB <<< 1) % 256
            some (set_value_flags { c1 with DB := d } d)
          | 1 => store_word c c.AB c.DB
          | _ => none
        else none
    | .LSR =>
      if c.instr.mode = .IMP then
        let c1 := change_flags c SR_C (if c.A &&& 0x01 ≠ 0 then SR_C else 0)
        let a := c1.A >>> 1
        some (set_value_flags { c1 with A := a } a)
      else
        if c.instr.address_latched then
          match c.instr.ncycles - c.instr.cycle - 1 with
          | 3 =>
            match load_word c c.AB with
            | none => none
            | some v => some { c with DB := v }
          | 2 =>
            let c1 := change_flags c SR_C (if c.DB &&& 0x01 ≠ 0 then SR_C else 0)
            let d := c1.DB >>> 1
            some (set_value_flags { c1 with DB := d } d)
          | 1 => store_word c c.AB c.DB
          | _ => none
        else none
    | .ROL =>
      if c.instr.mode = .IMP then
        let carry := c.P &&& SR_C ≠ 0
        let c1 := change_flags c SR_C (if c.A &&& 0x80 ≠ 0 then SR_C else 0)
        let a := ((c1.A <<< 1) ||| (if carry then 1 else 0)) % 256
        some (set_value_flags { c1 with A := a } a)
      else
        if c.instr.address_latched then
          match c.instr.ncycles - c.instr.cycle - 1 with
          | 3 =>
            match load_word c c.AB with
            | none => none
            | some v => some { c with DB := v }
          | 2 =>
            let carry := c.P &&& SR_C ≠ 0
            let c1 := change_flags c SR_C (if c.DB &&& 0x80 ≠ 0 then SR_C else 0)
            let d := ((c1.DB <<< 1) ||| (if carry then 1 else 0)) % 256
            some (set_value_flags { c1 with DB := d } d)
          | 1 => store_word c c.AB c.DB
          | _ => none
        else none
    | .ROR =>
      if c.instr.mode = .IMP then
        let carry := c.P &&& SR_C ≠ 0
        let c1 := change_flags c SR_C (if c.A &&& 0x01 ≠ 0 then SR_C else 0)
        let a := ((c1.A >>> 1) ||| (if carry then 0x80 else 0)) % 256
        some (set_value_flags { c1 with A := a } a)
      else
        if c.instr.address_latched then
          match c.instr.ncycles - c.instr.cycle - 1 with
          | 3 =>
            match load_word c c.AB with
            | none => none
            | some v => some { c with DB := v }
          | 2 =>
            let carry := c.P &&& SR_C ≠ 0
            let c1 := change_flags c SR_C (if c.DB &&& 0x01 ≠ 0 then SR_C else 0)
            let d := ((c1.DB >>> 1) ||| (if carry then 0x80 else 0)) % 256
            some (set_value_flags { c1 with DB := d } d)
          | 1 => store_word c c.AB c.DB
          | _ => none
        else none
    | .CLC => some { c with P := c.P &&& (0xFF ^^^ SR_C) }
    | .CLD => none
    | .CLI => some { c with P := c.P &&& (0xFF ^^^ SR_I) }
    | .CLV => some { c with P := c.P &&& (0xFF ^^^ SR_V) }
    | .SEC => some { c with P := (c.P ||| SR_C) % 256 }
    | .SED => none
    | .SEI => some { c with P := (c.P ||| SR_I) % 256 }

/-- insert_pa_range: capacity check, then an ordered insertion that aborts
when the new range is not strictly separated from its neighbours.  The loop
body on the list `pa_map`; `range->base + (range->size - 1)` is the same
uint32 computation as in `pa_range_covers`. -/
def pa_range_last (r : PaRange) : Nat :=
  (r.base + ((r.size + (2 ^ 32 - 1)) % 2 ^ 32)) % 2 ^ 32

def insert_pa_loop : List PaRange → PaRange → Option (List PaRange)
  | [], range => some [range]
  | r :: rest, range =>
    if r.base > range.base then
      if pa_range_last range < r.base then some (range :: r :: rest) else none
    else
      if pa_range_last r < range.base then
        match insert_pa_loop rest range with
        | none => none
        | some l => some (r :: l)
      else none

def insert_pa_range (c : Mos6502Cpu) (range : PaRange) : Option Mos6502Cpu :=
  if c.pa_map.length < 8 then
    match insert_pa_loop c.pa_map range with
    | none => none
    | some l => some { c with pa_map := l }
  else none

/-- mos6502_init: the state is zeroed (pointer validity is implicit in the
embedding). -/
def mos6502_init : Mos6502Cpu :=
  { PC := 0, AB := 0, A := 0, X := 0, Y := 0, P := 0, SP := 0, DB := 0,
    halted := false, instr := zero_instr, cycle := 0, total_retired := 0,
    pa_map := [] }

/-- mos6502_map_ram_region: after the null checks (implicit here), verify
`size != 0` and `(~base & 0xFFFF) <= size - 1`, then insert a RAM region.
`base` passes through a mos_pa_t parameter and `size` is stored into a
uint32 field. -/
def mos6502_map_ram_region (c : Mos6502Cpu) (base size : Nat) (mapped : Nat → Nat) :
    Option Mos6502Cpu :=
  let base := base % 65536
  if size = 0 then none
  else if ¬ ((base ^^^ 0xFFFF) ≤ size - 1) then none
  else insert_pa_range c { base := base, size := size % 2 ^ 32, is_ram := true, mem := mapped }

/-- mos6502_reset: load the little-endian reset vector into PC, reinitialise
SP/P/halted/cycle/total_retired, and prefetch the first opcode. -/
def mos6502_reset (c : Mos6502Cpu) : Option Mos6502Cpu :=
  match load_word c 0xfffd with
  | none => none
  | some hi =>
    match load_word c 0xfffc with
    | none => none
    | some lo =>
      let c := { c with PC := ((hi <<< 8) ||| lo) % 65536, SP := 0xfd,
                        P := SR_I ||| SR_U, halted := false, cycle := 8,
                        total_retired := 0 }
      match fetch_next_instr c with
      | none => none
      | some (i, c) => some { c with instr := i }

/-- The `cycle_done` epilogue of mos6502_tick: bump the bus-cycle counter
and, when no instruction retired, the instruction sub-cycle (uint8). -/
def tick_epilogue (retired : Bool) (c : Mos6502Cpu) : Mos6502Cpu :=
  { c with cycle := c.cycle + 1,
           instr := if retired then c.instr
                    else { c.instr with cycle := (c.instr.cycle + 1) % 256 } }

/-- mos6502_tick: one bus cycle.  A halted CPU returns false untouched.
Otherwise: run the addressing step if the address is not latched (the goto
cycle_done when it is not immediate), then either the uop step (with the
halt-retire shortcut) or, on the terminal T+ cycle, the overlapped fetch of
the next opcode followed by retirement. -/
def mos6502_tick (c : Mos6502Cpu) : Option (Bool × Mos6502Cpu) :=
  if c.halted then some (false, c)
  else
    match (if c.instr.address_latched then some (true, c) else addr_mode_exec c) with
    | none => none
    | some (proceed, c) =>
      if proceed = false then some (false, tick_epilogue false c)
      else
        if c.instr.address_latched = false then none
        else
          if instr_is_tplus c.instr = false then
            match uop_exec c with
            | none => none
            | some c =>
              if c.halted then
                some (true, tick_epilogue true { c with total_retired := c.total_retired + 1 })
              else some (false, tick_epilogue false c)
          else
            match (if c.halted then some (c.instr, c) else fetch_next_instr c) with
            | none => none
            | some (i, c) =>
              some (true, tick_epilogue true
                { c with instr := i, total_retired := c.total_retired + 1 })

/-- mos6502_is_halted. -/
def mos6502_is_halted (c : Mos6502Cpu) : Bool := c.halted

/-- Drive `n` ticks, collecting the retirement flag of each; `none` if any
tick hits a fatal condition. -/
def run_ticks : Nat → Mos6502Cpu → Option (List Bool × Mos6502Cpu)
  | 0, c => some ([], c)
  | n + 1, c =>
    match mos6502_tick c with
    | none => none
    | some (r, c1) =>
      match run_ticks n c1 with
      | none => none
      | some (rs, c2) => some (r :: rs, c2)

/-- The test fixture of 2a0x.c: a single RAM region covering the full 16-bit
space whose reset vector points at 0x0000, then init, map, reset. -/
def init_test_cpu (mem : Nat → Nat) : Option Mos6502Cpu :=
  match mos6502_map_ram_region mos6502_init 0 0x10000 mem with
  | none => none
  | some c => mos6502_reset c

/-- RAM image holding `prog` at address 0 and zeroes elsewhere (so the reset
vector at 0xFFFC/0xFFFD reads 0x0000). -/
def prog_ram (prog : List Nat) : Nat → Nat :=
  fun a => prog.getD a 0

/-- Whether a load/store at `addr` resolves to a RAM region. -/
def addr_maps_ram (c : Mos6502Cpu) (addr : Nat) : Bool :=
  match map_addr c.pa_map addr with
  | none => false
  | some r => r.is_ram

/-- The instruction record as `mos6502_tick` carries it into `uop_exec` for
an IMP-mode stack op at sub-cycle `k`. -/
def stack_instr (u : Uop) (ncyc k : Nat) : Mos6502Instr :=
  { uop := u, mode := .IMP, cycle := k, ncycles := ncyc,
    address_latched := true, xpage_stall := false, always_stall := false }

def with_instr (c : Mos6502Cpu) (i : Mos6502Instr) : Mos6502Cpu := { c with instr := i }

/-- The two executor sub-cycles of PHA (ncycles 3: uop_exec runs at
sub-cycles 0 and 1; the terminal cycle is the overlapped fetch). -/
def exec_PHA (c : Mos6502Cpu) : Option Mos6502Cpu :=
  match uop_exec (with_instr c (stack_instr .PHA 3 0)) with
  | none => none
  | some c1 => uop_exec (with_instr c1 (stack_instr .PHA 3 1))

/-- The three executor sub-cycles of PLA (ncycles 4). -/
def exec_PLA (c : Mos6502Cpu) : Option Mos6502Cpu :=
  match uop_exec (with_instr c (stack_instr .PLA 4 0)) with
  | none => none
  | some c1 =>
    match uop_exec (with_instr c1 (stack_instr .PLA 4 1)) with
    | none => none
    | some c2 => uop_exec (with_instr c2 (stack_instr .PLA 4 2))

/-- The two executor sub-cycles of PHP. -/
def exec_PHP (c : Mos6502Cpu) : Option Mos6502Cpu :=
  match uop_exec (with_instr c (stack_instr .PHP 3 0)) with
  | none => none
  | some c1 => uop_exec (with_instr c1 (stack_instr .PHP 3 1))

/-- The three executor sub-cycles of PLP. -/
def exec_PLP (c : Mos6502Cpu) : Option Mos6502Cpu :=
  match uop_exec (with_instr c (stack_instr .PLP 4 0)) with
  | none => none
  | some c1 =>
    match uop_exec (with_instr c1 (stack_instr .PLP 4 1)) with
    | none => none
    | some c2 => uop_exec (with_instr c2 (stack_instr .PLP 4 2))

/-- The RAM image of scenario S7: program at 0, operand byte at 0x0100. -/
def s7_ram : Nat → Nat :=
  fun a => if a = 0x100 then 0xAB else prog_ram [0xA2, 0x01, 0xBD, 0xFF, 0x00, 0x02] a

/-- A CPU about to execute the TXS micro-op, with X = 0 and P = U only. -/
def txs_state : Mos6502Cpu :=
  { mos6502_init with
    P := 0x20,
    instr := { zero_instr with uop := Uop.TXS, ncycles := 2, address_latched := true } }

/-- A halted CPU with a nonzero cycle counter. -/
def halted_state : Mos6502Cpu :=
  { mos6502_init with halted := true, cycle := 5 }

/-- A freshly reset CPU over full-range RAM holding NOP then JAM. -/
def nop_cpu : Mos6502Cpu :=
  (init_test_cpu (prog_ram [0xEA, 0x02])).getD mos6502_init

/-- The result of one tick of `nop_cpu`. -/
def c8_tick_result : Bool × Mos6502Cpu :=
  (mos6502_tick nop_cpu).getD (false, nop_cpu)

/-- A CPU with A = 0x7F and carry clear, for instantiating the ADC spec. -/
def c5_state : Mos6502Cpu :=
  { mos6502_init with A := 0x7F }

/-- A reset CPU over full-range RAM with a distinctive accumulator, for
instantiating the stack round trip. -/
def c9_cpu : Mos6502Cpu :=
  { nop_cpu with A := 0x5A }

/-- A CPU whose entire RAM holds 0xFF, so the next opcode fetch indexes
`mos_opcodes[0xFF]`, one past the end of the table. -/
def c10_cpu : Mos6502Cpu :=
  (mos6502_map_ram_region mos6502_init 0 0x10000 (fun _ => 0xFF)).getD mos6502_init

set_option maxRecDepth 100000
set_option maxHeartbeats 1600000

/-- Masking with 128 is nonzero exactly when bit 7 is set. -/
lemma and_128_ne_zero_iff (x : Nat) : x &&& 128 ≠ 0 ↔ x.testBit 7 = true := by
  rw [show (128:Nat) = 2 ^ 7 from rfl, Nat.and_two_pow]
  cases htb : x.testBit 7 <;> simp

/-- Bits of a byte-reduced value. -/
lemma testBit_mod_256 (x i : Nat) : (x % 256).testBit i = (decide (i < 8) && x.testBit i) := by
  rw [show (256:Nat) = 2 ^ 8 from rfl, Nat.testBit_mod_two_pow]

/-- store_word only rewrites the region list; the cycle counter is untouched. -/
lemma store_word_cycle {c c1 : Mos6502Cpu} {pa v : Nat}
    (h : store_word c pa v = some c1) : c1.cycle = c.cycle := by
  unfold store_word at h
  cases hs : store_ranges c.pa_map pa v <;> rw [hs] at h
  · cases h
  · cases h; rfl

/-- No addressing-mode sub-cycle changes the cycle counter. -/
lemma addr_mode_exec_cycle : ∀ {c : Mos6502Cpu} {r : Bool × Mos6502Cpu},
    addr_mode_exec c = some r → r.2.cycle = c.cycle := by
  intro c r h
  simp only [addr_mode_exec] at h
  repeat' split at h
  all_goals (cases h)
  all_goals rfl

/-- Fetching the next opcode does not change the cycle counter. -/
lemma fetch_next_instr_cycle : ∀ {c : Mos6502Cpu} {r : Mos6502Instr × Mos6502Cpu},
    fetch_next_instr c = some r → r.2.cycle = c.cycle := by
  intro c r h
  simp only [fetch_next_instr] at h
  repeat' split at h
  all_goals (cases h)
  all_goals rfl

/-- No micro-op sub-cycle changes the cycle counter. -/
lemma uop_exec_cycle : ∀ {c c1 : Mos6502Cpu}, uop_exec c = some c1 → c1.cycle = c.cycle := by
  intro c c1 h
  simp only [uop_exec] at h
  repeat' split at h
  all_goals first
    | (exact store_word_cycle h)
    | (cases h; all_goals (first | rfl | (rename_i heq; have hsc := store_word_cycle heq; exact hsc)))

/-- A store through a RAM region found by map_addr succeeds. -/
lemma store_ranges_isSome_of_ram : ∀ {l : List PaRange} {pa : Nat} {r : PaRange} (v : Nat),
    map_addr l pa = some r → r.is_ram = true → ∃ l', store_ranges l pa v = some l' := by
  intro l
  induction l with
  | nil => intro pa r v h; simp [map_addr] at h
  | cons hd tl ih =>
    intro pa r v h hram
    unfold map_addr at h
    unfold store_ranges
    by_cases hc : pa_range_covers hd pa
    · rw [if_pos hc] at h ⊢
      cases h
      rw [if_pos hram]
      exact ⟨_, rfl⟩
    · rw [if_neg hc] at h
      rw [if_neg hc]
      obtain ⟨l', hl'⟩ := ih v h hram
      exact ⟨hd :: l', by rw [hl']⟩

/-- After a store, mapping the stored address finds a RAM region whose byte
at that offset is the stored value. -/
lemma map_addr_after_store : ∀ {l : List PaRange} {pa v : Nat} {l' : List PaRange},
    store_ranges l pa v = some l' →
    ∃ r', map_addr l' pa = some r' ∧ r'.is_ram = true ∧ r'.mem (pa - r'.base) = v % 256 := by
  intro l
  induction l with
  | nil => intro pa v l' h; simp [store_ranges] at h
  | cons hd tl ih =>
    intro pa v l' h
    unfold store_ranges at h
    by_cases hc : pa_range_covers hd pa
    · rw [if_pos hc] at h
      by_cases hram : hd.is_ram = true
      · rw [if_pos hram] at h
        cases h
        refine ⟨{ hd with mem := fun o => if o = pa - hd.base then v % 256 else hd.mem o },
          ?_, hram, ?_⟩
        · have hc' : pa_range_covers
              { base := hd.base, size := hd.size, is_ram := hd.is_ram,
                mem := fun o => if o = pa - hd.base then v % 256 else hd.mem o } pa = true := hc
          unfold map_addr
          rw [if_pos hc']
        · simp
      · rw [if_neg hram] at h; cases h
    · rw [if_neg hc] at h
      cases hs : store_ranges tl pa v <;> rw [hs] at h
      · cases h
      · cases h
        obtain ⟨r', hr1, hr2, hr3⟩ := ih hs
        refine ⟨r', ?_, hr2, hr3⟩
        unfold map_addr
        rw [if_neg hc]
        exact hr1

/-- Loading back the address just stored yields the stored byte. -/
lemma load_word_after_store {c c1 : Mos6502Cpu} {pa v : Nat}
    (h : store_word c pa v = some c1) : load_word c1 pa = some (v % 256) := by
  unfold store_word at h
  cases hs : store_ranges c.pa_map pa v <;> rw [hs] at h
  · cases h
  · cases h
    obtain ⟨r', hr1, hr2, hr3⟩ := map_addr_after_store hs
    unfold load_word
    simp only [hr1, hr2, if_pos, hr3]
    simp

/-- PHA then PLA restores the accumulator. -/
lemma stack_pha_pla (c : Mos6502Cpu)
    (hhalt : c.halted = false) (hSP : c.SP < 256) (hA : c.A < 256)
    (hram : addr_maps_ram c (0x0100 ||| c.SP) = true) :
    ((exec_PHA c).bind exec_PLA).map (fun x => x.A) = some c.A := by
  obtain ⟨r, hmr, hrram⟩ : ∃ r, map_addr c.pa_map (0x0100 ||| c.SP) = some r ∧ r.is_ram = true := by
    unfold addr_maps_ram at hram
    cases hm : map_addr c.pa_map (0x0100 ||| c.SP) <;> rw [hm] at hram
    · cases hram
    · exact ⟨_, rfl, hram⟩
  obtain ⟨l1, hl1⟩ := store_ranges_isSome_of_ram c.A hmr hrram
  obtain ⟨r', hld, hr'ram, hmem⟩ := map_addr_after_store hl1
  have homega : ((c.SP + 255) % 256 + 1) % 256 = c.SP := by omega
  have hmodA : c.A % 256 = c.A := Nat.mod_eq_of_lt hA
  simp [exec_PHA, exec_PLA, uop_exec, with_instr, stack_instr, store_word, load_word,
        set_value_flags, change_flags, hhalt, hl1, homega, hld, hr'ram, hmem, hmodA]

/-- PHP then PLP restores the status bits outside B and U. -/
lemma stack_php_plp (c : Mos6502Cpu)
    (hhalt : c.halted = false) (hSP : c.SP < 256) (hP : c.P < 256)
    (hram : addr_maps_ram c (0x0100 ||| c.SP) = true) :
    ((exec_PHP c).bind exec_PLP).map (fun x => x.P &&& (0xFF ^^^ (SR_B ||| SR_U)))
      = some (c.P &&& (0xFF ^^^ (SR_B ||| SR_U))) := by
  obtain ⟨r, hmr, hrram⟩ : ∃ r, map_addr c.pa_map (0x0100 ||| c.SP) = some r ∧ r.is_ram = true := by
    unfold addr_maps_ram at hram
    cases hm : map_addr c.pa_map (0x0100 ||| c.SP) <;> rw [hm] at hram
    · cases hram
    · exact ⟨_, rfl, hram⟩
  obtain ⟨l1, hl1⟩ := store_ranges_isSome_of_ram (c.P ||| 16 ||| 32) hmr hrram
  obtain ⟨r', hld, hr'ram, hmem⟩ := map_addr_after_store hl1
  have homega : ((c.SP + 255) % 256 + 1) % 256 = c.SP := by omega
  have hlow : c.P ||| SR_B ||| SR_U < 256 :=
    @Nat.or_lt_two_pow _ _ 8 (@Nat.or_lt_two_pow _ _ 8 hP (by decide)) (by decide)
  have hv : (c.P ||| 16 ||| 32) % 256 = c.P ||| 48 := by
    rw [show (c.P ||| 16 ||| 32 : Nat) = c.P ||| SR_B ||| SR_U from rfl,
        Nat.mod_eq_of_lt hlow, Nat.lor_assoc, show SR_B ||| SR_U = 48 from rfl]
  have hv2 : (c.P ||| 48) % 256 = c.P ||| 48 :=
    Nat.mod_eq_of_lt (@Nat.or_lt_two_pow _ _ 8 hP (by decide))
  have hkey : (c.P &&& 48) ||| ((c.P ||| 48) &&& 207) = c.P := by
    rw [Nat.and_distrib_right c.P 48 207, show (48:Nat) &&& 207 = 0 from rfl,
        Nat.or_zero, ← Nat.and_or_distrib_left,
        show (48:Nat) ||| 207 = 255 from rfl,
        show (255:Nat) = 2 ^ 8 - 1 from rfl, Nat.and_pow_two_sub_one_eq_mod]
    exact Nat.mod_eq_of_lt hP
  simp [exec_PHP, exec_PLP, uop_exec, with_instr, stack_instr, store_word, load_word,
        SR_B, SR_U, hhalt, hl1, homega, hld, hr'ram, hmem, hv, hv2, hkey]

/-- Ticking a non-halted CPU that does not hit a fatal condition adds
exactly one to the cycle counter. -/
lemma mos6502_tick_cycle : ∀ {c : Mos6502Cpu} {r : Bool × Mos6502Cpu},
    c.halted = false → mos6502_tick c = some r → r.2.cycle = c.cycle + 1 := by
  intro c r hh h
  unfold mos6502_tick at h
  rw [hh] at h
  simp only [Bool.false_eq_true, if_false] at h
  cases haux : (if c.instr.address_latched = true then some (true, c) else addr_mode_exec c) with
  | none => rw [haux] at h; cases h
  | some pc =>
    rw [haux] at h
    obtain ⟨proceed, c1⟩ := pc
    dsimp only [] at h
    have hc1 : c1.cycle = c.cycle := by
      by_cases hl : c.instr.address_latched = true
      · rw [if_pos hl] at haux; cases haux; rfl
      · rw [if_neg hl] at haux; exact addr_mode_exec_cycle haux
    by_cases hp : proceed = false
    · rw [if_pos hp] at h
      cases h
      simpa [tick_epilogue] using hc1
    · rw [if_neg hp] at h
      by_cases hl2 : c1.instr.address_latched = false
      · rw [if_pos hl2] at h; cases h
      · rw [if_neg hl2] at h
        by_cases ht : instr_is_tplus c1.instr = false
        · rw [if_pos ht] at h
          cases hu : uop_exec c1 with
          | none => rw [hu] at h; cases h
          | some c2 =>
            rw [hu] at h
            dsimp only [] at h
            have hc2 : c2.cycle = c.cycle := (uop_exec_cycle hu).trans hc1
            by_cases hh2 : c2.halted = true
            · rw [if_pos hh2] at h
              cases h
              simpa [tick_epilogue] using hc2
            · rw [if_neg hh2] at h
              cases h
              simpa [tick_epilogue] using hc2
        · rw [if_neg ht] at h
          cases hf : (if c1.halted = true then some (c1.instr, c1) else fetch_next_instr c1) with
          | none => rw [hf] at h; cases h
          | some ic =>
            rw [hf] at h
            obtain ⟨i2, c2⟩ := ic
            dsimp only [] at h
            have hc2 : c2.cycle = c.cycle := by
              by_cases hh2 : c1.halted = true
              · rw [if_pos hh2] at hf; cases hf; exact hc1
              · rw [if_neg hh2] at hf
                exact (fetch_next_instr_cycle hf).trans hc1
            cases h
            simpa [tick_epilogue] using hc2

/-- C1: the claim (matching the spec table) says a call with a valid pointer,
size at least 1, base + size - 1 at most 0xFFFF, free capacity and no
overlap is accepted and appended.  The code instead verifies
`(~base & 0xFFFF) <= size - 1`, i.e. the inverted bound base + size - 1 >=
0xFFFF, so the in-range call base = 0, size = 1 on a fresh CPU satisfies
every claimed precondition yet aborts fatally (returns none). -/
theorem c1_map_ram_region_inverted_bound :
    mos6502_map_ram_region mos6502_init 0 1 (fun _ => 0) = none ∧
    (1:Nat) ≥ 1 ∧ (0:Nat) + 1 - 1 ≤ 0xFFFF ∧ mos6502_init.pa_map.length < 8 :=
  ⟨rfl, by decide, by decide, by decide⟩

/-- C2: scenario S1.  With full-range RAM, reset vector 0x0000 and program
EA 02, the three ticks after reset return false, true, true (NOP retires on
its second cycle, HLT on its single cycle), after which cycle = 11,
total_retired = 2 and halted = true. -/
theorem c2_nop_jam_scenario :
    ((init_test_cpu (prog_ram [0xEA, 0x02])).bind (fun c =>
      (run_ticks 3 c).map (fun p => (p.1, p.2.cycle, p.2.total_retired, p.2.halted))))
      = some ([false, true, true], 11, 2, true) := by
  decide

/-- C3: evaluating the claim's failing input.  On a CPU with X = 0 and
P = 0x20 (U only), the TXS micro-op sets SP to X but also runs
set_value_flags on the new SP, turning P into 0x22 (Z set) - the code
changes the status register although the claim (and the spec) say TXS
performs no flag update. -/
theorem c3_txs_sets_flags :
    (uop_exec txs_state).map (fun x => (x.SP, x.P)) = some (0, 0x22) ∧
    txs_state.X = 0 ∧ txs_state.P = 0x20 := by
  decide

/-- C4 counterexample: opcode 0x00 has no designated initialiser, yet its
table entry is the zero-filled descriptor and fetching it on a fresh
full-RAM CPU succeeds instead of aborting. -/
theorem c4_unpopulated_opcode_not_fatal :
    populated_opcode_bytes.contains 0x00 = false ∧
    mos_opcodes_get 0x00 = some zero_instr ∧
    (fetch_next_instr { mos6502_init with
        pa_map := [{ base := 0, size := 0x10000, is_ram := true, mem := fun _ => 0 }] }).isSome
      = true := by
  decide

/-- C4 (amended): fetching an unpopulated opcode is not a fatal condition.
Every unpopulated byte in 0x00..0xFE maps to the zero-initialised
descriptor (uop NOP, mode IMP, ncycles 0); only byte 0xFF lies past the end
of the 255-entry table and fails the lookup. -/
theorem c4_unpopulated_opcode_zero_descriptor :
    (∀ b : Nat, b < 255 → b ∉ populated_opcode_bytes → mos_opcodes_get b = some zero_instr) ∧
    mos_opcodes_get 0xFF = none := by
  decide

/-- C4 witness: the amended statement instantiated at opcode 0x00. -/
theorem c4_unpopulated_opcode_zero_descriptor_witness :
    mos_opcodes_get 0x00 = some zero_instr :=
  c4_unpopulated_opcode_zero_descriptor.1 0x00 (by decide) (by decide)

/-- C5: the ADC core.  For all 8-bit A and M and both carry-in values (the
carry flows from P bit 0, which is unconstrained), exec_addc stores
(A + M + carry) mod 256 in A, sets C exactly when the sum exceeds 0xFF,
sets V exactly when ((A xor result) and (M xor result) and 0x80) is
nonzero, and sets Z/N from the 8-bit result; and in uop_exec the ADC case
is exec_addc on the loaded byte while the SBC case is exec_addc on its
bitwise complement. -/
theorem c5_adc_sbc_spec :
    (∀ (c : Mos6502Cpu) (m : Nat), c.A < 256 → m < 256 →
      (exec_addc c m).A
          = (c.A + m + (if c.P &&& SR_C ≠ 0 then 1 else 0)) % 256 ∧
      (exec_addc c m).P.testBit 0
          = decide (c.A + m + (if c.P &&& SR_C ≠ 0 then 1 else 0) > 0xFF) ∧
      (exec_addc c m).P.testBit 6
          = decide ((c.A ^^^ (c.A + m + (if c.P &&& SR_C ≠ 0 then 1 else 0)) % 256) &&&
                    (m ^^^ (c.A + m + (if c.P &&& SR_C ≠ 0 then 1 else 0)) % 256) &&& 0x80 ≠ 0) ∧
      (exec_addc c m).P.testBit 1
          = decide ((c.A + m + (if c.P &&& SR_C ≠ 0 then 1 else 0)) % 256 = 0) ∧
      (exec_addc c m).P.testBit 7
          = ((c.A + m + (if c.P &&& SR_C ≠ 0 then 1 else 0)) % 256).testBit 7) ∧
    (∀ (c : Mos6502Cpu) (v : Nat), c.halted = false → c.instr.uop = Uop.ADC →
      c.instr.address_latched = true → load_word c c.AB = some v →
      uop_exec c = some (exec_addc c v)) ∧
    (∀ (c : Mos6502Cpu) (v : Nat), c.halted = false → c.instr.uop = Uop.SBC →
      c.instr.address_latched = true → load_word c c.AB = some v →
      uop_exec c = some (exec_addc c (v ^^^ 0xFF))) := by
  refine ⟨?_, ?_, ?_⟩
  · intro c m hA hm
    have hm' : m % 256 = m := Nat.mod_eq_of_lt hm
    have hres : (c.A + m + (if c.P &&& 1 ≠ 0 then 1 else 0)) &&& 255
        = (c.A + m + (if c.P &&& 1 ≠ 0 then 1 else 0)) % 256 := by
      rw [show (255:Nat) = 2 ^ 8 - 1 from rfl, Nat.and_pow_two_sub_one_eq_mod]
    refine ⟨?_, ?_, ?_, ?_, ?_⟩
    · simp only [exec_addc, change_flags, set_value_flags, SR_C, SR_V, SR_Z, SR_N, hm']
      rw [hres]
    · simp only [exec_addc, change_flags, set_value_flags, SR_C, SR_V, SR_Z, SR_N, hm']
      rw [hres]
      clear hres hm' hA hm
      split_ifs <;>
        (simp only [Nat.testBit_or, Nat.testBit_and, testBit_mod_256];
         simp_all [Nat.testBit_to_div_mod, and_128_ne_zero_iff, testBit_mod_256];
         try omega)
    · simp only [exec_addc, change_flags, set_value_flags, SR_C, SR_V, SR_Z, SR_N, hm']
      rw [hres]
      clear hres hm' hA hm
      split_ifs <;>
        (simp only [Nat.testBit_or, Nat.testBit_and, testBit_mod_256];
         simp_all [Nat.testBit_to_div_mod, and_128_ne_zero_iff, testBit_mod_256];
         try omega)
    · simp only [exec_addc, change_flags, set_value_flags, SR_C, SR_V, SR_Z, SR_N, hm']
      rw [hres]
      clear hres hm' hA hm
      split_ifs <;>
        (simp only [Nat.testBit_or, Nat.testBit_and, testBit_mod_256];
         simp_all [Nat.testBit_to_div_mod, and_128_ne_zero_iff, testBit_mod_256];
         try omega)
    · simp only [exec_addc, change_flags, set_value_flags, SR_C, SR_V, SR_Z, SR_N, hm']
      rw [hres]
      clear hres hm' hA hm
      split_ifs <;>
        (simp only [Nat.testBit_or, Nat.testBit_and, testBit_mod_256];
         simp_all [Nat.testBit_to_div_mod, and_128_ne_zero_iff, testBit_mod_256];
         try omega)
  · intro c v hh hu hl hld
    simp [uop_exec, hh, hu, hl, hld]
  · intro c v hh hu hl hld
    simp [uop_exec, hh, hu, hl, hld]

/-- C5 witness: the arithmetic part instantiated at A = 0x7F, M = 1, carry
clear (0x7F + 1 = 0x80: signed overflow, no carry). -/
theorem c5_adc_sbc_spec_witness :
    c5_state.A < 256 ∧ (1:Nat) < 256 ∧
    (exec_addc c5_state 1).A
      = (c5_state.A + 1 + (if c5_state.P &&& SR_C ≠ 0 then 1 else 0)) % 256 ∧
    (exec_addc c5_state 1).P.testBit 6
      = decide ((c5_state.A ^^^ (c5_state.A + 1 + (if c5_state.P &&& SR_C ≠ 0 then 1 else 0)) % 256) &&&
                ((1:Nat) ^^^ (c5_state.A + 1 + (if c5_state.P &&& SR_C ≠ 0 then 1 else 0)) % 256) &&& 0x80 ≠ 0) :=
  ⟨by decide, by decide,
   (c5_adc_sbc_spec.1 c5_state 1 (by decide) (by decide)).1,
   (c5_adc_sbc_spec.1 c5_state 1 (by decide) (by decide)).2.2.1⟩

/-- C6: scenario S7.  With full-range RAM, program A2 01 BD FF 00 02 and
RAM[0x0100] = 0xAB: the run to halt retires LDX after tick 2 (cycle 10) and
LDA after tick 7 (cycle 15), so the LDA $00FF,X consumes 15 - 10 = 5 bus
cycles; its table entry carries base ncycles 4 with the xpage-stall flag,
and the in-flight ncycles is bumped to 5 by the page cross (0xFF + 1 >
0xFF); afterwards A = 0xAB and the CPU halts on tick 8. -/
theorem c6_lda_absx_page_cross_scenario :
    ((init_test_cpu s7_ram).bind (fun c =>
      (run_ticks 8 c).map (fun p => (p.1, p.2.A, p.2.halted))))
      = some ([false, true, false, false, false, false, true, true], 0xAB, true) ∧
    ((init_test_cpu s7_ram).bind (fun c =>
      (run_ticks 2 c).map (fun p => p.2.cycle))) = some 10 ∧
    ((init_test_cpu s7_ram).bind (fun c =>
      (run_ticks 7 c).map (fun p => p.2.cycle))) = some 15 ∧
    ((init_test_cpu s7_ram).bind (fun c =>
      (run_ticks 4 c).map (fun p => p.2.instr.ncycles))) = some 5 ∧
    mos_opcodes_get 0xBD = some (mk_instr .LDA .ABSX 4 MOS_INSTR_XPAGE_STALL) := by
  decide

/-- C7: a tick of a halted CPU returns false and the identical state - PC,
AB, registers, status, SP, DB, the instruction record, the counters and the
whole region map (including every backing byte) are unchanged. -/
theorem c7_tick_halted_noop :
    ∀ c : Mos6502Cpu, c.halted = true → mos6502_tick c = some (false, c) := by
  intro c h
  unfold mos6502_tick
  rw [h]
  simp

/-- C7 witness: the theorem applied to a concrete halted state. -/
theorem c7_tick_halted_noop_witness :
    halted_state.halted = true ∧ mos6502_tick halted_state = some (false, halted_state) :=
  ⟨rfl, c7_tick_halted_noop halted_state rfl⟩

/-- C8 counterexample: on a halted CPU with cycle = 5 the tick returns
(keeping cycle at 5) - the cycle counter does not increase by 1 on that
call, so the claim quantified over every call fails. -/
theorem c8_halted_tick_cycle_counterexample :
    (mos6502_tick halted_state).map (fun p => p.2.cycle) = some halted_state.cycle ∧
    halted_state.cycle = 5 ∧ (((5:Nat) == 5 + 1) = false) := by
  refine ⟨rfl, rfl, by decide⟩

/-- C8 (amended): a tick of a non-halted CPU that completes without a fatal
abort increases the cycle counter by exactly 1, whether it returns false or
true; a tick of a halted CPU returns with the cycle counter unchanged. -/
theorem c8_tick_cycle_amended :
    (∀ (c : Mos6502Cpu) (r : Bool × Mos6502Cpu),
      c.halted = false → mos6502_tick c = some r → r.2.cycle = c.cycle + 1) ∧
    (∀ c : Mos6502Cpu, c.halted = true →
      (mos6502_tick c).map (fun p => p.2.cycle) = some c.cycle) := by
  refine ⟨?_, ?_⟩
  · intro c r hh h
    exact mos6502_tick_cycle hh h
  · intro c h
    unfold mos6502_tick
    rw [h]
    simp

/-- C8 witness: the amended statement applied to the freshly reset NOP CPU
(cycle 8 before the tick, 9 after) and to the halted state. -/
theorem c8_tick_cycle_amended_witness :
    nop_cpu.halted = false ∧
    mos6502_tick nop_cpu = some c8_tick_result ∧
    c8_tick_result.2.cycle = nop_cpu.cycle + 1 ∧
    halted_state.halted = true ∧
    (mos6502_tick halted_state).map (fun p => p.2.cycle) = some halted_state.cycle :=
  ⟨rfl, rfl, c8_tick_cycle_amended.1 nop_cpu c8_tick_result rfl rfl,
   rfl, c8_tick_cycle_amended.2 halted_state rfl⟩

/-- C9: for every non-halted CPU state whose stack slot resolves to RAM
(with byte-sized SP, A and P), running the PHA executor sub-cycles followed
by the PLA ones restores A, and running PHP followed by PLP restores every
status bit outside B and U (the byte masked with the complement of B|U is
unchanged). -/
theorem c9_stack_round_trip :
    (∀ c : Mos6502Cpu, c.halted = false → c.SP < 256 → c.A < 256 →
      addr_maps_ram c (0x0100 ||| c.SP) = true →
      ((exec_PHA c).bind exec_PLA).map (fun x => x.A) = some c.A) ∧
    (∀ c : Mos6502Cpu, c.halted = false → c.SP < 256 → c.P < 256 →
      addr_maps_ram c (0x0100 ||| c.SP) = true →
      ((exec_PHP c).bind exec_PLP).map (fun x => x.P &&& (0xFF ^^^ (SR_B ||| SR_U)))
        = some (c.P &&& (0xFF ^^^ (SR_B ||| SR_U)))) :=
  ⟨fun c hh hs ha hr => stack_pha_pla c hh hs ha hr,
   fun c hh hs hp hr => stack_php_plp c hh hs hp hr⟩

/-- C9 witness: the round trips instantiated on a reset full-RAM CPU with
A = 0x5A, SP = 0xFD, P = I|U. -/
theorem c9_stack_round_trip_witness :
    c9_cpu.halted = false ∧ c9_cpu.SP < 256 ∧ c9_cpu.A < 256 ∧ c9_cpu.P < 256 ∧
    addr_maps_ram c9_cpu (0x0100 ||| c9_cpu.SP) = true ∧
    ((exec_PHA c9_cpu).bind exec_PLA).map (fun x => x.A) = some c9_cpu.A ∧
    ((exec_PHP c9_cpu).bind exec_PLP).map (fun x => x.P &&& (0xFF ^^^ (SR_B ||| SR_U)))
      = some (c9_cpu.P &&& (0xFF ^^^ (SR_B ||| SR_U))) :=
  ⟨by decide, by decide, by decide, by decide, by decide,
   c9_stack_round_trip.1 c9_cpu (by decide) (by decide) (by decide) (by decide),
   c9_stack_round_trip.2 c9_cpu (by decide) (by decide) (by decide) (by decide)⟩

/-- C10: mos_opcodes[] has highest designated index 0xFE, so the C array has
255 entries; the Option lookup yields a descriptor for every byte 0x00..0xFE
and none for 0xFF, and a fetch that reads opcode byte 0xFF (a CPU whose RAM
is all 0xFF) indexes past the end of the table. -/
theorem c10_opcode_table_bounds :
    mos_opcodes_size = 255 ∧
    0xFE ∈ populated_opcode_bytes ∧
    (∀ b ∈ populated_opcode_bytes, b ≤ 0xFE) ∧
    (∀ b : Nat, b < 255 → (mos_opcodes_get b).isSome = true) ∧
    mos_opcodes_get 0xFF = none ∧
    (fetch_next_instr c10_cpu).isSome = false := by
  decide

/-- C10 witness: the bounded statements instantiated at bytes 0x07 and 0xFE. -/
theorem c10_opcode_table_bounds_witness :
    (mos_opcodes_get 0x07).isSome = true ∧ (0xFE : Nat) ≤ 0xFE :=
  ⟨c10_opcode_table_bounds.2.2.2.1 0x07 (by decide),
   c10_opcode_table_bounds.2.2.1 0xFE (by decide)⟩

end Epoch
